import Mathlib

/-!
# Verification of the Team Action Plan Manager core

A shallow embedding of the session-scoped workflow engine of the
`team_action_plan_manager` repository (files `scripts/models.py`,
`scripts/handlers.py`, `scripts/telegram_bot.py`), together with proofs
of the testable properties stated in its design specification.

The database is modelled as in-memory lists of records mirroring the
SQLite tables (`users`, `tasks`, `activity_logs`, `files`); each
Python function that the properties mention is translated into a pure
Lean function over this state.  The ambient clock (`datetime.now()`,
SQLite `date('now')`) is passed explicitly as parameters.
-/

namespace TAPM

/-- ASCII lower-casing of one character, as Python's `str.lower` acts on
the ASCII strings used by this program. -/
def lowerChar (c : Char) : Char := c.toLower

/-- `s.lower()` on ASCII strings. -/
def lowerStr (s : String) : String := String.mk (s.data.map lowerChar)

/-- Python `f"{n:03d}"` for a natural number: decimal digits, left-padded
with zeros to a minimum width of three.  Wider numbers keep all digits. -/
def pad3 (n : Nat) : String :=
  let s := toString n
  if s.length < 3 then String.mk (List.replicate (3 - s.length) '0') ++ s else s

/-- SQL `LIKE 'p%'`: the stored string starts with the literal prefix
`p`.  The patterns built by `_generate_task_code` contain `%` only at
the end and no `_` wildcard, and both the patterns and the stored codes
are produced by the same generator in upper case, so SQLite's ASCII
case-insensitive `LIKE` coincides with an exact prefix match here. -/
def likePrefix (p s : String) : Bool := p.data.isPrefixOf s.data

/-- Insert into a list kept sorted by a numeric key, descending. -/
def insertDesc {α : Type} (key : α → Nat) (x : α) : List α → List α
  | [] => [x]
  | y :: ys => if key y ≤ key x then x :: y :: ys else y :: insertDesc key x ys

/-- SQL `ORDER BY <key> DESC` (ties in an unspecified order, as in
SQLite): an insertion sort on the key, descending. -/
def sortDesc {α : Type} (key : α → Nat) : List α → List α
  | [] => []
  | x :: xs => insertDesc key x (sortDesc key xs)

/-- Row of the `users` table. -/
structure UserRec where
  id : Nat
  telegram_id : String
  username : Option String
  full_name : String
  status : String
  role : Option String
  last_login : Option Nat
  deriving Repr, DecidableEq

/-- Row of the `tasks` table.  `created_date` models `DATE(created_at)`
and `created_at` the full creation timestamp. -/
structure TaskRec where
  id : Nat
  task_code : String
  task_type : String
  category : String
  description : String
  customer_name : Option String
  customer_city : Option String
  customer_area : Option String
  travel_required : Bool
  company_type : Option String
  status : String
  priority : String
  created_by : Nat
  created_date : String
  created_at : Nat
  deriving Repr, DecidableEq

/-- Row of the `activity_logs` table. -/
structure ActivityRec where
  id : Nat
  user_id : Nat
  activity_type : String
  description : Option String
  start_time : Nat
  end_time : Option Nat
  duration_minutes : Option Nat
  task_id : Option Nat
  location_notes : Option String
  billable : Bool
  company_type : Option String
  deriving Repr, DecidableEq

/-- Row of the `files` table. -/
structure FileRec where
  id : Nat
  task_id : Option Nat
  filename : String
  original_filename : String
  file_type : String
  file_size : Nat
  upload_method : String
  uploaded_by : Nat
  deriving Repr, DecidableEq

/-- The persistent store: the four tables of `database_setup.py` /
`DatabaseManager._create_tables` that the handlers touch. -/
structure DB where
  users : List UserRec
  tasks : List TaskRec
  activities : List ActivityRec
  files : List FileRec
  deriving Repr, DecidableEq

/-- One read or write of a table, recorded so that "performs no read or
mutation of task, activity, or file records" is stateable. -/
inductive Eff where
  | readUsers | writeUsers
  | readTasks | writeTasks
  | readActivities | writeActivities
  | readFiles | writeFiles
  deriving Repr, DecidableEq

/-- Effects touching the task, activity or file tables (the user table is
consulted by authentication itself). -/
def Eff.touchesTAF : Eff → Bool
  | .readTasks | .writeTasks | .readActivities | .writeActivities
  | .readFiles | .writeFiles => true
  | _ => false

/-! ## models.py: UserManager -/

/-- `UserManager.get_user_by_telegram_id`: `SELECT ... FROM users WHERE
telegram_id = ?` (the column is UNIQUE, so the first match is the row). -/
def get_user_by_telegram_id (db : DB) (telegram_id : String) : Option UserRec :=
  db.users.find? (fun u => u.telegram_id == telegram_id)

/-- `UserManager.update_last_login`: `UPDATE users SET last_login =
CURRENT_TIMESTAMP WHERE id = ?`. -/
def update_last_login (db : DB) (user_id : Nat) (now : Nat) : DB :=
  { db with users := db.users.map (fun u =>
      if u.id == user_id then { u with last_login := some now } else u) }

/-- `UserManager.register_user`: check whether a row with this
`telegram_id` exists; if so return `False` without touching the store,
otherwise insert a new row with status `'pending'` and return `True`.
The fresh `id` models SQLite's AUTOINCREMENT. -/
def register_user (db : DB) (telegram_id : String) (full_name : String)
    (username : Option String) : Bool × DB :=
  match db.users.find? (fun u => u.telegram_id == telegram_id) with
  | some _ => (false, db)
  | none =>
      (true, { db with users := db.users ++
        [{ id := db.users.length + 1
           telegram_id := telegram_id
           username := username
           full_name := full_name
           status := "pending"
           role := none
           last_login := none }] })

/-! ## models.py: TaskManager -/

/-- The `category_prefixes` table of `TaskManager._generate_task_code`,
applied after `category.lower()`; an unknown category falls back to
`'TASK'`. -/
def categoryPrefix (category : String) : String :=
  let c := lowerStr category
  if c = "installation" then "INST"
  else if c = "maintenance" then "MAINT"
  else if c = "repair" then "REP"
  else if c = "inspection" then "INSP"
  else if c = "calibration" then "CAL"
  else if c = "commissioning" then "COMM"
  else if c = "training" then "TRAIN"
  else if c = "emergency" then "EMRG"
  else if c = "other" then "OTHER"
  else "TASK"

/-- The `SELECT COUNT(*) FROM tasks WHERE task_code LIKE
'<prefix>-<date>-%' AND DATE(created_at) = DATE('now')` of
`_generate_task_code`. -/
def dayCount (tasks : List TaskRec) (ppre date : String) : Nat :=
  (tasks.filter (fun t =>
    likePrefix (ppre ++ "-" ++ date ++ "-") t.task_code
      && t.created_date == date)).length

/-- `TaskManager._generate_task_code`: prefix from the category table,
`date` is `datetime.now().strftime('%y%m%d')`, sequence is the day's
count plus one, rendered `f"{prefix}-{date_str}-{count:03d}"`. -/
def generate_task_code (tasks : List TaskRec) (category : String)
    (date : String) : String :=
  let ppre := categoryPrefix category
  ppre ++ "-" ++ date ++ "-" ++ pad3 (dayCount tasks ppre date + 1)

/-- The `task_data` dictionary handed to `TaskManager.create_task`.  The
keys read by the function are modelled; `travel_required` is present so
that it can be shown to be ignored. -/
structure TaskData where
  task_type : Option String
  category : String
  description : String
  customer_name : Option String
  customer_city : Option String
  customer_area : Option String
  company_type : Option String
  priority : Option String
  travel_required : Option Bool
  deriving Repr, DecidableEq

/-- `task_data.get('customer_city', '')`: the Python `dict.get` default
applies when the key is absent. -/
def TaskData.cityOrEmpty (d : TaskData) : String := d.customer_city.getD ""

/-- The row handed to the `INSERT INTO tasks` of
`TaskManager.create_task`: every inserted column.  `travel_required` is
computed as `task_data.get('customer_city', '').lower() != 'tanger'`
(any `travel_required` value in `task_data` is never read); `status`
takes the schema default `'to_do'`; the fresh `id` models AUTOINCREMENT. -/
def newTaskRow (db : DB) (task_data : TaskData) (created_by : Nat)
    (task_code : String) (date : String) (now : Nat) : TaskRec :=
  { id := db.tasks.length + 1
    task_code := task_code
    task_type := task_data.task_type.getD "technical_task"
    category := task_data.category
    description := task_data.description
    customer_name := task_data.customer_name
    customer_city := task_data.customer_city
    customer_area := task_data.customer_area
    travel_required := lowerStr task_data.cityOrEmpty ≠ "tanger"
    company_type := task_data.company_type
    status := "to_do"
    priority := task_data.priority.getD "normal"
    created_by := created_by
    created_date := date
    created_at := now }

/-- `TaskManager.create_task`: generate the code, then `INSERT INTO
tasks`; returns the new task code.  `date`/`now` model the creation
clock. -/
def create_task (db : DB) (task_data : TaskData) (created_by : Nat)
    (date : String) (now : Nat) : String × DB :=
  let task_code := generate_task_code db.tasks task_data.category date
  (task_code,
    { db with tasks := db.tasks ++ [newTaskRow db task_data created_by task_code date now] })

/-- `TaskManager.get_all_tasks`: all rows, or the rows with the given
status, ordered by `created_at DESC`. -/
def get_all_tasks (db : DB) (status_filter : Option String) : List TaskRec :=
  let rows : List TaskRec := match status_filter with
    | some s => db.tasks.filter (fun t => t.status == s)
    | none => db.tasks
  sortDesc (fun t => t.created_at) rows

/-- `TaskManager.get_task_by_code`: `SELECT ... WHERE task_code = ?`
(UNIQUE column). -/
def get_task_by_code (db : DB) (task_code : String) : Option TaskRec :=
  db.tasks.find? (fun t => t.task_code == task_code)

/-! ## models.py: ActivityManager -/

/-- `ActivityManager.get_user_activities`: `WHERE user_id = ? ORDER BY
start_time DESC LIMIT ?`. -/
def get_user_activities (db : DB) (user_id : Nat) (limit : Nat) :
    List ActivityRec :=
  (sortDesc (fun a => a.start_time)
    (db.activities.filter (fun a => a.user_id == user_id))).take limit

/-- The aggregate values returned by `ActivityManager.get_user_stats`.
`month_hours` is kept in minutes (the Python code divides by 60.0 and
rounds for display only). -/
structure UserStats where
  total_activities : Nat
  week_activities : Nat
  month_minutes : Nat
  top_activities : List (String × Nat)
  deriving Repr, DecidableEq

/-- The `GROUP BY activity_type ... ORDER BY count DESC LIMIT 5` query of
`get_user_stats`, over an already-filtered row list. -/
def topActivities (rows : List ActivityRec) : List (String × Nat) :=
  (sortDesc (fun g => g.2)
    (((rows.map (fun a => a.activity_type)).dedup).map
      (fun ty => (ty, (rows.filter (fun a => a.activity_type == ty)).length)))).take 5

/-- `ActivityManager.get_user_stats`: four aggregates, each over
`activity_logs WHERE user_id = ?` with the respective date condition
(`weekStart` models `date('now','-7 days')`, `monthStart` models
`date('now','start of month')`). -/
def get_user_stats (db : DB) (user_id : Nat) (weekStart monthStart : Nat) :
    UserStats :=
  let mine := db.activities.filter (fun a => a.user_id == user_id)
  { total_activities := mine.length
    week_activities := (mine.filter (fun a => weekStart ≤ a.start_time)).length
    month_minutes := ((mine.filter (fun a => monthStart ≤ a.start_time)).map
      (fun a => a.duration_minutes.getD 0)).sum
    top_activities := topActivities mine }

/-! ## models.py: StatsManager (global, shared data) -/

/-- The aggregate counts of `StatsManager.get_global_stats` (counts only;
no row of any table is returned). -/
structure GlobalStats where
  total_tasks : Nat
  completed_tasks : Nat
  active_tasks : Nat
  active_users : Nat
  total_files : Nat
  week_activities : Nat
  deriving Repr, DecidableEq

/-- `StatsManager.get_global_stats`: team-wide counts over tasks, users,
files and the week's activity rows of all users. -/
def get_global_stats (db : DB) (weekStart : Nat) : GlobalStats :=
  { total_tasks := db.tasks.length
    completed_tasks := (db.tasks.filter (fun t => t.status == "completed")).length
    active_tasks := (db.tasks.filter (fun t => t.status == "in_progress")).length
    active_users := (db.users.filter (fun u => u.status == "active")).length
    total_files := db.files.length
    week_activities :=
      (db.activities.filter (fun a => weekStart ≤ a.start_time)).length }

/-! ## handlers.py: sessions, responses and dispatch -/

/-- One entry of `BotHandlers.active_sessions`: the dictionaries stored by
`_handle_category_selection`, `_handle_activity_selection` and
`_handle_upload_task_selection` (unused keys are `none`). -/
structure Session where
  action : String
  category : Option String := none
  activity_type : Option String := none
  task_id : Option Nat := none
  step : String
  deriving Repr, DecidableEq

/-- `BotHandlers.active_sessions` is a Python dict keyed by the internal
user id; modelled as an association list with dict semantics. -/
def Sessions := List (Nat × Session)
  deriving Repr, DecidableEq

/-- `self.active_sessions[k] = v`: replace any existing binding of `k`. -/
def Sessions.set (m : Sessions) (k : Nat) (v : Session) : Sessions :=
  (k, v) :: List.filter (fun p => !(p.1 == k)) m

/-- `self.active_sessions.get(k)`. -/
def Sessions.get (m : Sessions) (k : Nat) : Option Session :=
  (List.find? (fun p => p.1 == k) m).map (fun p => p.2)

/-- Number of live session entries a user id owns in the store. -/
def Sessions.countFor (m : Sessions) (k : Nat) : Nat :=
  List.countP (fun p => p.1 == k) m

/-- The user-visible outcome of one inbound event, abstracting the
rendered text of `ui.py`. -/
inductive Response where
  /-- `ui.format_access_denied_message()` from `_require_auth`, and the
  `"Access denied. Please register first."` alert in `handle_callback`. -/
  | accessDenied
  /-- `ui.format_error_message(...)` / permission alerts. -/
  | errorMsg (msg : String)
  /-- `ui.format_info_message(...)`. -/
  | infoMsg (msg : String)
  /-- A rendered screen or prompt sent with `message.answer` or
  `edit_text`; the tag names which screen. -/
  | screen (tag : String)
  /-- A short `callback.answer(...)` notification. -/
  | note (msg : String)
  /-- `"Unknown action"` for an unmatched callback token. -/
  | unknownAction
  /-- Bare `callback.answer()` (the `noop` branch). -/
  | ack
  /-- The `except` branch of `handle_callback`:
  `"An error occurred. Please try again."`. -/
  | errorOccurred
  deriving Repr, DecidableEq

/-- The ambient clock values the handlers obtain from `datetime.now()` and
SQLite date expressions. -/
structure Clock where
  now : Nat
  today : String
  weekStart : Nat
  monthStart : Nat
  deriving Repr, DecidableEq

/-- Result of handling one inbound event: the response sent, the store and
session map afterwards, and the table accesses performed. -/
structure HRes where
  resp : Response
  db : DB
  sessions : Sessions
  effs : List Eff
  deriving Repr, DecidableEq

/-- `BotHandlers._check_user_access`: resolve the Telegram id, require
status `'active'`, and update `last_login` on success. -/
def check_user_access (db : DB) (tid : String) (now : Nat) :
    Option UserRec × DB × List Eff :=
  match get_user_by_telegram_id db tid with
  | none => (none, db, [.readUsers])
  | some u =>
      if u.status = "active" then
        (some u, update_last_login db u.id now, [.readUsers, .writeUsers])
      else (none, db, [.readUsers])

/-- `BotHandlers._require_role`: `user.get('role') in required_roles`
(a `None` role is in no role list). -/
def hasRole (u : UserRec) (required_roles : List String) : Bool :=
  match u.role with
  | some r => required_roles.contains r
  | none => false

/-- Split off the first occurrence of `sep` inside `l`: the part before
it and the part after it, or `none` when `sep` does not occur. -/
def findSplit (sep : List Char) : List Char → Option (List Char × List Char)
  | [] => none
  | c :: rest =>
      if sep.isPrefixOf (c :: rest) then some ([], (c :: rest).drop sep.length)
      else
        match findSplit sep rest with
        | none => none
        | some (pre, post) => some (c :: pre, post)

/-- Python `data.split(p)[1]` for the dispatch prefixes, which occur at
the start of `data`: the leading occurrence contributes an empty zeroth
element, and element 1 runs from there to the next occurrence of `p` (or
to the end when `p` does not recur). -/
def splitTail (p s : String) : String :=
  let rest := s.data.drop p.data.length
  match findSplit p.data rest with
  | none => String.mk rest
  | some (pre, _) => String.mk pre

/-- `data.startswith`-style test used to mirror `data.startswith(p)` /
the `str.startswith` semantics of the dispatch chain. -/
def strStartsWith (p s : String) : Bool := p.data.isPrefixOf s.data

/-- Python `int(s)` restricted to the non-negative decimal literals that
the `upload_task_<id>` buttons carry; any other payload raises
`ValueError` (modelled as `none`). -/
def parseNat? (s : String) : Option Nat :=
  if s.data ≠ [] ∧ s.data.all (fun c => decide ('0' ≤ c) && decide (c ≤ '9')) then
    some (s.data.foldl (fun n c => n * 10 + (c.toNat - 48)) 0)
  else none

/-! ### Message handlers (gated by `_require_auth`) -/

/-- `BotHandlers.handle_my_tasks`: authenticate, then show the task
filter keyboard (no table besides `users` is touched). -/
def handle_my_tasks (db : DB) (sessions : Sessions) (tid : String)
    (clk : Clock) : HRes :=
  match check_user_access db tid clk.now with
  | (none, db1, effs) => ⟨.accessDenied, db1, sessions, effs⟩
  | (some _, db1, effs) => ⟨.screen "task_filters", db1, sessions, effs⟩

/-- `BotHandlers.handle_new_task`: authenticate, require the
`manager`/`technician` role, then show the category keyboard. -/
def handle_new_task (db : DB) (sessions : Sessions) (tid : String)
    (clk : Clock) : HRes :=
  match check_user_access db tid clk.now with
  | (none, db1, effs) => ⟨.accessDenied, db1, sessions, effs⟩
  | (some u, db1, effs) =>
      if hasRole u ["manager", "technician"] then
        ⟨.screen "task_categories", db1, sessions, effs⟩
      else
        ⟨.errorMsg "You don't have permission to create tasks.", db1, sessions, effs⟩

/-- `BotHandlers.handle_log_activity`: authenticate, then show the
activity type keyboard. -/
def handle_log_activity (db : DB) (sessions : Sessions) (tid : String)
    (clk : Clock) : HRes :=
  match check_user_access db tid clk.now with
  | (none, db1, effs) => ⟨.accessDenied, db1, sessions, effs⟩
  | (some _, db1, effs) => ⟨.screen "activity_types", db1, sessions, effs⟩

/-- `BotHandlers.handle_my_stats`: authenticate, read the caller's
personal statistics and the global statistics, render both. -/
def handle_my_stats (db : DB) (sessions : Sessions) (tid : String)
    (clk : Clock) : HRes :=
  match check_user_access db tid clk.now with
  | (none, db1, effs) => ⟨.accessDenied, db1, sessions, effs⟩
  | (some u, db1, effs) =>
      let _personal := get_user_stats db1 u.id clk.weekStart clk.monthStart
      let _team := get_global_stats db1 clk.weekStart
      ⟨.screen "stats", db1, sessions,
        effs ++ [.readActivities, .readTasks, .readUsers, .readFiles, .readActivities]⟩

/-- `BotHandlers.handle_upload_file`: authenticate, list all tasks; if
none exist report so, otherwise show the task selection keyboard. -/
def handle_upload_file (db : DB) (sessions : Sessions) (tid : String)
    (clk : Clock) : HRes :=
  match check_user_access db tid clk.now with
  | (none, db1, effs) => ⟨.accessDenied, db1, sessions, effs⟩
  | (some _, db1, effs) =>
      let tasks := get_all_tasks db1 none
      if tasks.isEmpty then
        ⟨.infoMsg "No tasks available for file upload.", db1, sessions,
          effs ++ [.readTasks]⟩
      else
        ⟨.screen "upload_task_select", db1, sessions, effs ++ [.readTasks]⟩

/-- `BotHandlers.handle_schedule`: authenticate, read all tasks and the
caller's five most recent activities, render the schedule screen. -/
def handle_schedule (db : DB) (sessions : Sessions) (tid : String)
    (clk : Clock) : HRes :=
  match check_user_access db tid clk.now with
  | (none, db1, effs) => ⟨.accessDenied, db1, sessions, effs⟩
  | (some u, db1, effs) =>
      let _tasks := get_all_tasks db1 none
      let _acts := get_user_activities db1 u.id 5
      ⟨.screen "schedule", db1, sessions, effs ++ [.readTasks, .readActivities]⟩

/-- `BotHandlers.handle_settings`: authenticate, render the profile
screen from the already-loaded user row. -/
def handle_settings (db : DB) (sessions : Sessions) (tid : String)
    (clk : Clock) : HRes :=
  match check_user_access db tid clk.now with
  | (none, db1, effs) => ⟨.accessDenied, db1, sessions, effs⟩
  | (some _, db1, effs) => ⟨.screen "settings", db1, sessions, effs⟩

/-- `BotHandlers.handle_file_upload` (media message): authenticate, then
ask the caller to select a task first. -/
def handle_file_upload (db : DB) (sessions : Sessions) (tid : String)
    (clk : Clock) : HRes :=
  match check_user_access db tid clk.now with
  | (none, db1, effs) => ⟨.accessDenied, db1, sessions, effs⟩
  | (some _, db1, effs) =>
      ⟨.infoMsg "Please select a task first using the Upload File button.",
        db1, sessions, effs⟩

/-- `BotHandlers.cmd_register`: report the current status when the
Telegram id is already registered, otherwise register it as pending. -/
def cmd_register (db : DB) (sessions : Sessions) (tid : String)
    (full_name : String) (username : Option String) : HRes :=
  match get_user_by_telegram_id db tid with
  | some u =>
      if u.status = "active" then
        ⟨.infoMsg "You are already registered and active!", db, sessions, [.readUsers]⟩
      else if u.status = "pending" then
        ⟨.infoMsg "Your registration is pending approval.", db, sessions, [.readUsers]⟩
      else
        ⟨.errorMsg "Your registration was rejected. Please contact an administrator.",
          db, sessions, [.readUsers]⟩
  | none =>
      match register_user db tid full_name username with
      | (true, db1) =>
          ⟨.screen "registration_pending", db1, sessions,
            [.readUsers, .readUsers, .writeUsers]⟩
      | (false, db1) =>
          ⟨.errorMsg "Registration failed. Please try again.", db1, sessions,
            [.readUsers, .readUsers]⟩

/-! ### Callback sub-handlers (reached only with an authenticated user) -/

/-- `BotHandlers._handle_task_filter`: list tasks with the chosen status
filter (`all` means no filter) and render them; sessions untouched. -/
def cb_task_filter (db : DB) (sessions : Sessions) (_u : UserRec)
    (data : String) : HRes :=
  let filter_type := splitTail "tasks_filter_" data
  let status_filter := if filter_type = "all" then none else some filter_type
  let tasks := get_all_tasks db status_filter
  if tasks.isEmpty then
    ⟨.infoMsg "No tasks found with this status.", db, sessions, [.readTasks]⟩
  else
    ⟨.screen "tasks_list", db, sessions, [.readTasks]⟩

/-- `BotHandlers._handle_category_selection`: check the role, then store
the task-creation session (replacing any prior session for this user)
and prompt for the description. -/
def cb_category_selection (db : DB) (sessions : Sessions) (u : UserRec)
    (data : String) : HRes :=
  if hasRole u ["manager", "technician"] then
    let category := splitTail "cat_" data
    ⟨.screen "create_task_step1", db,
      sessions.set u.id
        { action := "create_task", category := some category, step := "description" },
      []⟩
  else
    ⟨.errorMsg "You don't have permission to create tasks.", db, sessions, []⟩

/-- `BotHandlers._handle_activity_selection`: store the activity-logging
session (replacing any prior session for this user) and prompt for the
description. -/
def cb_activity_selection (db : DB) (sessions : Sessions) (u : UserRec)
    (data : String) : HRes :=
  let activity_type := splitTail "act_" data
  ⟨.screen "log_activity_prompt", db,
    sessions.set u.id
      { action := "log_activity", activity_type := some activity_type,
        step := "description" },
    []⟩

/-- `BotHandlers._handle_upload_task_selection`: parse the numeric id out
of `upload_task_<id>` (`int(...)` raises on a non-numeric payload), look
the task up **by the literal code `TASK-<id>`**, answer "Task not found"
when that lookup misses, otherwise store the upload session. -/
def cb_upload_task_selection (db : DB) (sessions : Sessions) (u : UserRec)
    (data : String) : Except String HRes :=
  match parseNat? (splitTail "upload_task_" data) with
  | none => .error "ValueError"
  | some task_id =>
      match get_task_by_code db ("TASK-" ++ toString task_id) with
      | none => .ok ⟨.errorMsg "Task not found.", db, sessions, [.readTasks]⟩
      | some _task =>
          .ok ⟨.screen "upload_prompt", db,
            sessions.set u.id
              { action := "upload_file", task_id := some task_id,
                step := "waiting_file" },
            [.readTasks]⟩

/-- `BotHandlers._handle_stats_action`: render personal, team or combined
statistics depending on the suffix; anything else is "coming soon". -/
def cb_stats_action (db : DB) (sessions : Sessions) (u : UserRec)
    (data : String) (clk : Clock) : HRes :=
  let action := splitTail "stats_" data
  if action = "personal" then
    let _s := get_user_stats db u.id clk.weekStart clk.monthStart
    ⟨.screen "stats_personal", db, sessions, [.readActivities]⟩
  else if action = "team" then
    let _s := get_global_stats db clk.weekStart
    ⟨.screen "stats_team", db, sessions,
      [.readTasks, .readUsers, .readFiles, .readActivities]⟩
  else if action = "refresh" then
    let _p := get_user_stats db u.id clk.weekStart clk.monthStart
    let _t := get_global_stats db clk.weekStart
    ⟨.screen "stats_combined", db, sessions,
      [.readActivities, .readTasks, .readUsers, .readFiles, .readActivities]⟩
  else
    ⟨.infoMsg "Feature coming soon!", db, sessions, []⟩

/-- The `if/elif` dispatch chain in the body of
`BotHandlers.handle_callback` below the authentication check, in source
order; the final `else` answers "Unknown action".  The `Except` layer
carries the one uncaught Python exception of the chain (`int(...)` in the
upload branch). -/
def callbackDispatch (db : DB) (sessions : Sessions) (u : UserRec)
    (data : String) (clk : Clock) : Except String HRes :=
  if strStartsWith "tasks_filter_" data then
    .ok (cb_task_filter db sessions u data)
  else if strStartsWith "cat_" data then
    .ok (cb_category_selection db sessions u data)
  else if strStartsWith "city_" data then
    .ok ⟨.note "City selection - Feature in development", db, sessions, []⟩
  else if strStartsWith "company_" data then
    .ok ⟨.note "Company selection - Feature in development", db, sessions, []⟩
  else if strStartsWith "priority_" data then
    .ok ⟨.note "Priority selection - Feature in development", db, sessions, []⟩
  else if strStartsWith "act_" data then
    .ok (cb_activity_selection db sessions u data)
  else if strStartsWith "upload_task_" data then
    cb_upload_task_selection db sessions u data
  else if data = "upload_search" then
    .ok ⟨.note "Upload search - Feature in development", db, sessions, []⟩
  else if strStartsWith "stats_" data then
    .ok (cb_stats_action db sessions u data clk)
  else if strStartsWith "schedule_" data then
    .ok ⟨.note "Schedule action - Feature in development", db, sessions, []⟩
  else if strStartsWith "settings_" data then
    .ok ⟨.note "Settings action - Feature in development", db, sessions, []⟩
  else if strStartsWith "help_" data then
    .ok ⟨.note "Help action - Feature in development", db, sessions, []⟩
  else if data = "noop" then
    .ok ⟨.ack, db, sessions, []⟩
  else
    .ok ⟨.unknownAction, db, sessions, []⟩

/-- `BotHandlers.handle_callback`: the registration callbacks are served
without authentication; every other callback requires an active account,
answering an access-denied alert otherwise; the whole body runs inside
`try/except`, whose handler answers a generic error.  (For
`start_registration` the source calls `cmd_register(callback.message)`;
the sender id of that message is abstracted as the caller's.) -/
def handle_callback (db : DB) (sessions : Sessions) (tid : String)
    (full_name : String) (username : Option String) (data : String)
    (clk : Clock) : HRes :=
  if data = "start_registration" then
    cmd_register db sessions tid full_name username
  else if data = "learn_more" then
    ⟨.screen "learn_more", db, sessions, []⟩
  else
    match check_user_access db tid clk.now with
    | (none, db1, effs) => ⟨.accessDenied, db1, sessions, effs⟩
    | (some u, db1, effs) =>
        match callbackDispatch db1 sessions u data clk with
        | .ok r => { r with effs := effs ++ r.effs }
        | .error _ => ⟨.errorOccurred, db1, sessions, effs⟩

/-! ## Interleaved executions of `TaskManager.create_task`

`create_task` issues two storage operations against the shared `tasks`
table: the `SELECT COUNT(*)` inside `_generate_task_code`, and the
`INSERT`.  Nothing in the source groups them into one atomic unit (each
call opens a plain SQLite connection; `conn.commit()` happens only after
the insert).  An interleaving of two concurrent calls is a schedule of
these per-call operations; each call keeps the count it read in a local
variable between its two operations. -/

/-- The progress of one in-flight `create_task` call: its inputs, the
count its `SELECT COUNT(*)` returned (once executed), and the task code
its `INSERT` was given (once executed). -/
structure PendingCreate where
  task_data : TaskData
  created_by : Nat
  counted : Option Nat := none
  inserted : Option String := none
  deriving Repr, DecidableEq

/-- Execute the next storage operation of one in-flight call against the
shared store: first the count, then the insert built exactly as
`create_task` builds it from the count it read earlier. -/
def stepCreate (db : DB) (r : PendingCreate) (date : String) (now : Nat) :
    DB × PendingCreate :=
  match r.counted with
  | none =>
      let c := dayCount db.tasks (categoryPrefix r.task_data.category) date
      (db, { r with counted := some c })
  | some c =>
      match r.inserted with
      | some _ => (db, r)
      | none =>
          let code := categoryPrefix r.task_data.category ++ "-" ++ date ++ "-"
            ++ pad3 (c + 1)
          ({ db with tasks :=
              db.tasks ++ [newTaskRow db r.task_data r.created_by code date now] },
           { r with inserted := some code })

/-- Run a schedule over two concurrent `create_task` calls; `false`
steps the first call, `true` the second. -/
def runSchedule (db : DB) (r₀ r₁ : PendingCreate) (date : String) (now : Nat) :
    List Bool → DB × PendingCreate × PendingCreate
  | [] => (db, r₀, r₁)
  | b :: rest =>
      if b then
        let (db', r₁') := stepCreate db r₁ date now
        runSchedule db' r₀ r₁' date now rest
      else
        let (db', r₀') := stepCreate db r₀ date now
        runSchedule db' r₀' r₁ date now rest

/-! ## Helper lemmas -/

theorem isPrefixOf_append_self (p r : List Char) : p.isPrefixOf (p ++ r) = true := by
  induction p with
  | nil => simp [List.isPrefixOf]
  | cons a as ih => simp [List.isPrefixOf, ih]

theorem likePrefix_append (p s : String) : likePrefix p (p ++ s) = true := by
  simp [likePrefix, String.data_append, isPrefixOf_append_self]

theorem mk_data_eq (s : String) : String.mk s.data = s := rfl

/-- When the separator does not recur in the tail, element 1 of the
split is the whole tail. -/
theorem splitTail_append (p s : String) (h : findSplit p.data s.data = none) :
    splitTail p (p ++ s) = s := by
  unfold splitTail
  rw [String.data_append, List.drop_left]
  simp only [h]

/-- A separator whose first character occurs nowhere in `l` does not
occur in `l`. -/
theorem findSplit_none_of_head_notin (c0 : Char) (cs : List Char) :
    ∀ l : List Char, (∀ c ∈ l, (c0 == c) = false) →
      findSplit (c0 :: cs) l = none := by
  intro l
  induction l with
  | nil => intro h; rfl
  | cons c rest ih =>
      intro h
      have hrec := ih (fun x hx => h x (List.mem_cons_of_mem _ hx))
      show (if (c0 :: cs).isPrefixOf (c :: rest)
            then some ([], (c :: rest).drop (c0 :: cs).length)
            else match findSplit (c0 :: cs) rest with
              | none => none
              | some (pre, post) => some (c :: pre, post)) = none
      rw [show (c0 :: cs).isPrefixOf (c :: rest)
            = ((c0 == c) && cs.isPrefixOf rest) from rfl,
          h c (List.mem_cons_self c rest)]
      simp [hrec]

/-- A successfully parsed payload consists of decimal digits only. -/
theorem parseNat?_digits (s : String) (n : Nat) (h : parseNat? s = some n) :
    ∀ c ∈ s.data, '0' ≤ c ∧ c ≤ '9' := by
  intro c hc
  unfold parseNat? at h
  by_cases hcond : s.data ≠ []
      ∧ s.data.all (fun c => decide ('0' ≤ c) && decide (c ≤ '9'))
  · have hall := hcond.2
    rw [List.all_eq_true] at hall
    have hcc := hall c hc
    rw [Bool.and_eq_true] at hcc
    exact ⟨of_decide_eq_true hcc.1, of_decide_eq_true hcc.2⟩
  · rw [if_neg hcond] at h
    cases h

/-- The separator `upload_task_` does not recur inside a numeric
payload. -/
theorem upload_payload_no_sep (s : String) (n : Nat) (h : parseNat? s = some n) :
    findSplit "upload_task_".data s.data = none := by
  apply findSplit_none_of_head_notin
  intro c hc
  have h9 := (parseNat?_digits s n h c hc).2
  rw [beq_eq_false_iff_ne]
  intro he
  rw [← he] at h9
  exact absurd h9 (by decide)

theorem mem_insertDesc {α : Type} (key : α → Nat) (x : α) (l : List α) (a : α) :
    a ∈ insertDesc key x l ↔ a = x ∨ a ∈ l := by
  induction l with
  | nil => simp [insertDesc]
  | cons y ys ih =>
      by_cases h : key y ≤ key x
      · simp [insertDesc, h, ih]
      · simp [insertDesc, h, ih]
        tauto

theorem mem_sortDesc {α : Type} (key : α → Nat) (l : List α) (a : α) :
    a ∈ sortDesc key l ↔ a ∈ l := by
  induction l with
  | nil => simp [sortDesc]
  | cons y ys ih => simp [sortDesc, mem_insertDesc, ih]

/-- A caller whose account is absent or not `active` fails
`_check_user_access` with no change to the store. -/
theorem check_user_access_nonactive (db : DB) (tid : String) (now : Nat)
    (h : ∀ u ∈ db.users, u.telegram_id = tid → u.status ≠ "active") :
    check_user_access db tid now = (none, db, [.readUsers]) := by
  unfold check_user_access get_user_by_telegram_id
  cases hf : db.users.find? (fun u => u.telegram_id == tid) with
  | none => rfl
  | some u =>
      have hmem := List.mem_of_find?_eq_some hf
      have heq : u.telegram_id = tid := by
        have := List.find?_some hf
        simpa using this
      have : u.status ≠ "active" := h u hmem heq
      simp [this]

/-- A caller whose account row is `active` passes `_check_user_access`,
with the best-effort `last_login` update as the only store change. -/
theorem check_user_access_active (db : DB) (tid : String) (now : Nat)
    (u : UserRec) (hu : get_user_by_telegram_id db tid = some u)
    (ha : u.status = "active") :
    check_user_access db tid now
      = (some u, update_last_login db u.id now, [.readUsers, .writeUsers]) := by
  unfold check_user_access
  rw [hu]
  simp [ha]

/-! ## Concrete fixtures used by witnesses and counterexamples -/

/-- A pending account. -/
def wPendingUser : UserRec :=
  { id := 1, telegram_id := "5", username := none, full_name := "Eve"
    status := "pending", role := some "manager", last_login := none }

/-- An active account holding the `commercial` role. -/
def wCommercialUser : UserRec :=
  { id := 1, telegram_id := "10", username := none, full_name := "Bob"
    status := "active", role := some "commercial", last_login := none }

/-- An active account holding the `technician` role. -/
def wTechUser : UserRec :=
  { id := 2, telegram_id := "11", username := some "al", full_name := "Al"
    status := "active", role := some "technician", last_login := none }

/-- A fixed clock. -/
def wClock : Clock := { now := 100, today := "250101", weekStart := 50, monthStart := 40 }

/-- A store holding only the pending account. -/
def wDbPending : DB := { users := [wPendingUser], tasks := [], activities := [], files := [] }

/-! ## The claims -/

/-- C1: a caller whose account status is not `active` (pending, rejected
or unregistered) receives an access-denied response from every
owner-scoped or privileged operation — task listing, task creation,
activity logging, stats, file upload (initiation and media message),
schedule, settings, and every authenticated callback — and no task,
activity or file record is read or mutated (the store is returned
unchanged and the only table access is the `users` lookup of the
authentication check itself), regardless of the account's role. -/
theorem nonactive_caller_every_operation_denied
    (db : DB) (sessions : Sessions) (tid : String) (clk : Clock)
    (h : ∀ u ∈ db.users, u.telegram_id = tid → u.status ≠ "active") :
    handle_my_tasks db sessions tid clk = ⟨.accessDenied, db, sessions, [.readUsers]⟩ ∧
    handle_new_task db sessions tid clk = ⟨.accessDenied, db, sessions, [.readUsers]⟩ ∧
    handle_log_activity db sessions tid clk = ⟨.accessDenied, db, sessions, [.readUsers]⟩ ∧
    handle_my_stats db sessions tid clk = ⟨.accessDenied, db, sessions, [.readUsers]⟩ ∧
    handle_upload_file db sessions tid clk = ⟨.accessDenied, db, sessions, [.readUsers]⟩ ∧
    handle_schedule db sessions tid clk = ⟨.accessDenied, db, sessions, [.readUsers]⟩ ∧
    handle_settings db sessions tid clk = ⟨.accessDenied, db, sessions, [.readUsers]⟩ ∧
    handle_file_upload db sessions tid clk = ⟨.accessDenied, db, sessions, [.readUsers]⟩ ∧
    (∀ full_name username data, data ≠ "start_registration" → data ≠ "learn_more" →
      handle_callback db sessions tid full_name username data clk
        = ⟨.accessDenied, db, sessions, [.readUsers]⟩) ∧
    Eff.readUsers.touchesTAF = false := by
  have hc := check_user_access_nonactive db tid clk.now h
  refine ⟨?_, ?_, ?_, ?_, ?_, ?_, ?_, ?_, ?_, rfl⟩
  · simp [handle_my_tasks, hc]
  · simp [handle_new_task, hc]
  · simp [handle_log_activity, hc]
  · simp [handle_my_stats, hc]
  · simp [handle_upload_file, hc]
  · simp [handle_schedule, hc]
  · simp [handle_settings, hc]
  · simp [handle_file_upload, hc]
  · intro full_name username data h1 h2
    unfold handle_callback
    rw [if_neg h1, if_neg h2, hc]

/-- Witness for C1: a concrete pending manager account is denied by
every operation. -/
theorem nonactive_caller_every_operation_denied_witness :
    (∀ u ∈ wDbPending.users, u.telegram_id = "5" → u.status ≠ "active") ∧
    (handle_my_tasks wDbPending [] "5" wClock
        = ⟨.accessDenied, wDbPending, [], [.readUsers]⟩ ∧
      handle_new_task wDbPending [] "5" wClock
        = ⟨.accessDenied, wDbPending, [], [.readUsers]⟩ ∧
      handle_log_activity wDbPending [] "5" wClock
        = ⟨.accessDenied, wDbPending, [], [.readUsers]⟩ ∧
      handle_my_stats wDbPending [] "5" wClock
        = ⟨.accessDenied, wDbPending, [], [.readUsers]⟩ ∧
      handle_upload_file wDbPending [] "5" wClock
        = ⟨.accessDenied, wDbPending, [], [.readUsers]⟩ ∧
      handle_schedule wDbPending [] "5" wClock
        = ⟨.accessDenied, wDbPending, [], [.readUsers]⟩ ∧
      handle_settings wDbPending [] "5" wClock
        = ⟨.accessDenied, wDbPending, [], [.readUsers]⟩ ∧
      handle_file_upload wDbPending [] "5" wClock
        = ⟨.accessDenied, wDbPending, [], [.readUsers]⟩ ∧
      (∀ full_name username data, data ≠ "start_registration" → data ≠ "learn_more" →
        handle_callback wDbPending [] "5" full_name username data wClock
          = ⟨.accessDenied, wDbPending, [], [.readUsers]⟩) ∧
      Eff.readUsers.touchesTAF = false) :=
  ⟨by decide, nonactive_caller_every_operation_denied wDbPending [] "5" wClock (by decide)⟩

/-- The store with the activity table cut down to one owner's rows; used
to state that a read depends only on the requesting account's records. -/
def restrictToOwner (db : DB) (uid : Nat) : DB :=
  { db with activities := db.activities.filter (fun a => a.user_id == uid) }

/-- Two concrete activity rows owned by different accounts. -/
def wAct1 : ActivityRec :=
  { id := 1, user_id := 1, activity_type := "travel", description := some "drive"
    start_time := 60, end_time := none, duration_minutes := some 30
    task_id := none, location_notes := none, billable := true, company_type := none }

/-- See `wAct1`. -/
def wAct2 : ActivityRec :=
  { id := 2, user_id := 2, activity_type := "repair", description := none
    start_time := 70, end_time := none, duration_minutes := some 45
    task_id := none, location_notes := none, billable := true, company_type := none }

/-- A store holding two active accounts and one activity row of each. -/
def wDbTwoOwners : DB :=
  { users := [wCommercialUser, wTechUser], tasks := []
    activities := [wAct1, wAct2], files := [] }

/-- C2: both ActivityRecord reads — the activity listing
(`get_user_activities`) and the personal statistics (`get_user_stats`) —
are owner-scoped: every row contributing to the result belongs to the
requesting account.  Each listed row carries the requester's `user_id`,
and both reads are unchanged when every other account's rows are removed
from the store, so no other account's records influence (or appear in)
the result. -/
theorem activity_reads_owner_scoped (db : DB) (uid limit weekStart monthStart : Nat) :
    (∀ a ∈ get_user_activities db uid limit, a.user_id = uid) ∧
    get_user_activities db uid limit
      = get_user_activities (restrictToOwner db uid) uid limit ∧
    get_user_stats db uid weekStart monthStart
      = get_user_stats (restrictToOwner db uid) uid weekStart monthStart := by
  refine ⟨?_, ?_, ?_⟩
  · intro a ha
    have h1 : a ∈ sortDesc (fun a => a.start_time)
        (db.activities.filter (fun a => a.user_id == uid)) :=
      List.mem_of_mem_take ha
    have h2 := (mem_sortDesc _ _ _).mp h1
    have h3 := (List.mem_filter.mp h2).2
    simpa using h3
  · simp [get_user_activities, restrictToOwner, List.filter_filter]
  · simp [get_user_stats, restrictToOwner, List.filter_filter]

/-- Witness for C2: in a store holding rows of two accounts, the first
listed activity of account 1 is account 1's own, and account 1's
statistics ignore account 2's rows entirely. -/
theorem activity_reads_owner_scoped_witness :
    (wAct1 ∈ get_user_activities wDbTwoOwners 1 50 ∧ wAct1.user_id = 1) ∧
    get_user_stats wDbTwoOwners 1 50 40
      = get_user_stats (restrictToOwner wDbTwoOwners 1) 1 50 40 :=
  ⟨⟨by decide, (activity_reads_owner_scoped wDbTwoOwners 1 50 50 40).1 wAct1 (by decide)⟩,
    (activity_reads_owner_scoped wDbTwoOwners 1 50 50 40).2.2⟩

/-- Appending a row that matches the day's pattern raises the day count
by exactly one. -/
theorem dayCount_append_match (ts : List TaskRec) (row : TaskRec) (p d : String)
    (h1 : likePrefix (p ++ "-" ++ d ++ "-") row.task_code = true)
    (h2 : row.created_date = d) :
    dayCount (ts ++ [row]) p d = dayCount ts p d + 1 := by
  simp [dayCount, List.filter_append, h1, h2]

/-- The generated code literally extends the day's `LIKE` pattern. -/
theorem generate_matches_pattern (ts : List TaskRec) (category date : String) :
    likePrefix (categoryPrefix category ++ "-" ++ date ++ "-")
      (generate_task_code ts category date) = true :=
  likePrefix_append _ _

/-- The nine known categories of `category_prefixes`, lower-cased. -/
def knownCategories : List String :=
  ["installation", "maintenance", "repair", "inspection", "calibration",
   "commissioning", "training", "emergency", "other"]

/-- C4: generated task codes have the form `<PREFIX>-<YYMMDD>-<seq>`:
the prefix comes from the fixed category table (with `TASK` for an
unknown category), the date is the creation day, and the sequence is the
3-digit zero-padded day count plus one — `001` for the first creation of
the day, and rising by exactly one with each creation because each
creation adds one row matching the day's pattern. -/
theorem task_code_format (tasks : List TaskRec) (category date : String)
    (db : DB) (d : TaskData) (cb now : Nat) :
    generate_task_code tasks category date
      = categoryPrefix category ++ "-" ++ date ++ "-"
        ++ pad3 (dayCount tasks (categoryPrefix category) date + 1) ∧
    (categoryPrefix "installation" = "INST" ∧ categoryPrefix "maintenance" = "MAINT" ∧
     categoryPrefix "repair" = "REP" ∧ categoryPrefix "inspection" = "INSP" ∧
     categoryPrefix "calibration" = "CAL" ∧ categoryPrefix "commissioning" = "COMM" ∧
     categoryPrefix "training" = "TRAIN" ∧ categoryPrefix "emergency" = "EMRG" ∧
     categoryPrefix "other" = "OTHER") ∧
    (∀ c, lowerStr c ∉ knownCategories → categoryPrefix c = "TASK") ∧
    (dayCount tasks (categoryPrefix category) date = 0 →
      generate_task_code tasks category date
        = categoryPrefix category ++ "-" ++ date ++ "-001") ∧
    (d.category = category →
      dayCount (create_task db d cb date now).2.tasks (categoryPrefix category) date
        = dayCount db.tasks (categoryPrefix category) date + 1) := by
  refine ⟨rfl, by decide, ?_, ?_, ?_⟩
  · intro c hc
    simp only [knownCategories, List.mem_cons, List.not_mem_nil, or_false, not_or] at hc
    obtain ⟨h1, h2, h3, h4, h5, h6, h7, h8, h9⟩ := hc
    simp [categoryPrefix, h1, h2, h3, h4, h5, h6, h7, h8, h9]
  · intro h0
    show categoryPrefix category ++ "-" ++ date ++ "-"
        ++ pad3 (dayCount tasks (categoryPrefix category) date + 1) = _
    rw [h0]
    rw [String.append_assoc]
    rfl
  · intro hcat
    show dayCount (db.tasks ++ [_]) _ _ = _
    rw [dayCount_append_match]
    · show likePrefix _ (generate_task_code db.tasks d.category date) = true
      rw [hcat]
      exact generate_matches_pattern _ _ _
    · rfl

/-- A task-creation input in category `repair`. -/
def wTaskData : TaskData :=
  { task_type := none, category := "repair", description := "fix pump"
    customer_name := some "ACME", customer_city := some "Rabat"
    customer_area := none, company_type := none, priority := none
    travel_required := none }

/-- Witness for C4: the first installation of the day gets `001`, an
unknown category falls back to `TASK`, and one repair creation raises
the repair day count by one. -/
theorem task_code_format_witness :
    categoryPrefix "plumbing" = "TASK" ∧
    generate_task_code [] "installation" "250101"
      = categoryPrefix "installation" ++ "-" ++ "250101" ++ "-001" ∧
    dayCount (create_task wDbTwoOwners wTaskData 2 "250101" 100).2.tasks
        (categoryPrefix "repair") "250101"
      = dayCount wDbTwoOwners.tasks (categoryPrefix "repair") "250101" + 1 :=
  ⟨(task_code_format [] "plumbing" "250101" wDbTwoOwners wTaskData 2 100).2.2.1
      "plumbing" (by decide),
    (task_code_format [] "installation" "250101" wDbTwoOwners wTaskData 2 100).2.2.2.1
      (by decide),
    (task_code_format [] "repair" "250101" wDbTwoOwners wTaskData 2 100).2.2.2.2 rfl⟩

/-- `n` successive `create_task` calls with the same input and clock. -/
def createMany (db : DB) (d : TaskData) (cb : Nat) (date : String) (now : Nat) :
    Nat → DB
  | 0 => db
  | n + 1 => (create_task (createMany db d cb date now n) d cb date now).2

/-- One `create_task` raises its own category's day count by one. -/
theorem dayCount_create_task (db : DB) (d : TaskData) (cb : Nat) (date : String)
    (now : Nat) :
    dayCount (create_task db d cb date now).2.tasks (categoryPrefix d.category) date
      = dayCount db.tasks (categoryPrefix d.category) date + 1 :=
  dayCount_append_match _ _ _ _ (generate_matches_pattern _ _ _) rfl

/-- `n` successive creations raise the day count by `n`. -/
theorem dayCount_createMany (db : DB) (d : TaskData) (cb : Nat) (date : String)
    (now : Nat) (n : Nat) :
    dayCount (createMany db d cb date now n).tasks (categoryPrefix d.category) date
      = dayCount db.tasks (categoryPrefix d.category) date + n := by
  induction n with
  | zero => rfl
  | succ k ih =>
      show dayCount (create_task _ _ _ _ _).2.tasks _ _ = _
      rw [dayCount_create_task, ih]
      omega

/-- The code returned by the `n+1`-st creation of a day that started at
count zero. -/
theorem createMany_next_code (db : DB) (d : TaskData) (cb now : Nat) (date : String)
    (h : dayCount db.tasks (categoryPrefix d.category) date = 0) (n : Nat) :
    (create_task (createMany db d cb date now n) d cb date now).1
      = categoryPrefix d.category ++ "-" ++ date ++ "-" ++ pad3 (n + 1) := by
  show generate_task_code (createMany db d cb date now n).tasks d.category date = _
  unfold generate_task_code
  simp only [dayCount_createMany, h, Nat.zero_add]

/-- `Nat.toDigitsCore` with enough fuel produces the base-10 digits,
most significant first, in front of the accumulator. -/
theorem toDigitsCore_eq_digits :
    ∀ (f n : Nat) (acc : List Char), n < f → 1 ≤ n →
      Nat.toDigitsCore 10 f n acc
        = ((Nat.digits 10 n).map Nat.digitChar).reverse ++ acc := by
  intro f
  induction f with
  | zero => intro n acc h hp; omega
  | succ f ih =>
      intro n acc hlt hpos
      show (if n / 10 = 0 then (n % 10).digitChar :: acc
            else Nat.toDigitsCore 10 f (n / 10) ((n % 10).digitChar :: acc)) = _
      rw [Nat.digits_def' (by norm_num : (1:ℕ) < 10) hpos]
      by_cases h0 : n / 10 = 0
      · rw [if_pos h0, h0]
        simp
      · rw [if_neg h0]
        have hdiv_lt : n / 10 < f := by
          have := Nat.div_lt_self hpos (by norm_num : 1 < 10)
          omega
        rw [ih (n / 10) _ hdiv_lt (Nat.pos_of_ne_zero h0)]
        simp

/-- For positive `n`, `Nat.repr` renders exactly the base-10 digits,
most significant first. -/
theorem repr_data_eq (n : Nat) (h : 1 ≤ n) :
    (Nat.repr n).data = ((Nat.digits 10 n).map Nat.digitChar).reverse := by
  show (Nat.toDigitsCore 10 (n + 1) n []).asString.data = _
  rw [toDigitsCore_eq_digits (n + 1) n [] (by omega) h]
  simp [List.asString]

/-- `Nat.digitChar` tells decimal digits apart. -/
theorem digitChar_inj_lt : ∀ a, a < 10 → ∀ b, b < 10 →
    Nat.digitChar a = Nat.digitChar b → a = b := by decide

/-- Mapping `Nat.digitChar` over lists of decimal digits is injective. -/
theorem map_digitChar_inj (l1 : List Nat) :
    ∀ l2 : List Nat, (∀ x ∈ l1, x < 10) → (∀ x ∈ l2, x < 10) →
      l1.map Nat.digitChar = l2.map Nat.digitChar → l1 = l2 := by
  induction l1 with
  | nil => intro l2 _ _ he; cases l2 <;> simp_all
  | cons a as ih =>
      intro l2 h1 h2 he
      cases l2 with
      | nil => simp_all
      | cons b bs =>
          simp only [List.map_cons, List.cons.injEq] at he
          have ha : a = b := digitChar_inj_lt a (h1 a (by simp)) b (h2 b (by simp)) he.1
          have hs : as = bs := ih bs (fun x hx => h1 x (by simp [hx]))
            (fun x hx => h2 x (by simp [hx])) he.2
          rw [ha, hs]

/-- `Nat.repr` is injective on positive numbers. -/
theorem repr_inj (m n : Nat) (hm : 1 ≤ m) (hn : 1 ≤ n)
    (h : Nat.repr m = Nat.repr n) : m = n := by
  have hd := congrArg String.data h
  rw [repr_data_eq m hm, repr_data_eq n hn] at hd
  have hrev := List.reverse_injective hd
  have hdig : Nat.digits 10 m = Nat.digits 10 n :=
    map_digitChar_inj _ _
      (fun x hx => Nat.digits_lt_base (by norm_num) hx)
      (fun x hx => Nat.digits_lt_base (by norm_num) hx) hrev
  calc m = Nat.ofDigits 10 (Nat.digits 10 m) := (Nat.ofDigits_digits 10 m).symm
    _ = Nat.ofDigits 10 (Nat.digits 10 n) := by rw [hdig]
    _ = n := Nat.ofDigits_digits 10 n

/-- The decimal rendering of a positive number has no leading zero. -/
theorem repr_head_ne_zero (n : Nat) (h : 1 ≤ n) :
    (Nat.repr n).data.head? ≠ some '0' := by
  rw [repr_data_eq n h, List.head?_reverse, List.getLast?_map]
  have hne : Nat.digits 10 n ≠ [] := Nat.digits_ne_nil_iff_ne_zero.mpr (by omega)
  rw [List.getLast?_eq_getLast _ hne]
  have hlast := Nat.getLast_digit_ne_zero 10 (show n ≠ 0 by omega)
  have hlt : (Nat.digits 10 n).getLast hne < 10 :=
    Nat.digits_lt_base (by norm_num) (List.getLast_mem hne)
  intro hc
  simp only [Option.map_some', Option.some.injEq] at hc
  have : ∀ d, d < 10 → d ≠ 0 → Nat.digitChar d ≠ '0' := by decide
  exact this _ hlt hlast hc

/-- `pad3` always renders the zero padding in front of the full decimal
representation (an empty padding once three digits are reached). -/
theorem pad3_data (n : Nat) : (pad3 n).data
    = List.replicate (3 - (toString n).length) '0' ++ (toString n).data := by
  unfold pad3
  by_cases hl : (toString n).length < 3
  · rw [if_pos hl, String.data_append]
  · rw [if_neg hl]
    have h0 : 3 - (toString n).length = 0 := by
      have : (toString n).length = (toString n).data.length := rfl
      omega
    rw [h0]
    simp

/-- Dropping leading zeros recovers the suffix when it has none. -/
theorem dropWhile_zeros (k : Nat) (d : List Char) (hd : d.head? ≠ some '0') :
    (List.replicate k '0' ++ d).dropWhile (fun c => c == '0') = d := by
  induction k with
  | zero =>
      cases d with
      | nil => rfl
      | cons c cs =>
          have : (c == '0') = false := by
            simp only [List.head?] at hd
            simpa using hd
          simp [List.dropWhile, this]
  | succ k ih => simpa [List.replicate_succ, List.dropWhile] using ih

/-- `pad3` is injective on positive sequence numbers: zero padding never
collides two distinct counts. -/
theorem pad3_inj (m n : Nat) (hm : 1 ≤ m) (hn : 1 ≤ n) (h : pad3 m = pad3 n) :
    m = n := by
  have hdata := congrArg String.data h
  rw [pad3_data, pad3_data] at hdata
  have h1 := congrArg (List.dropWhile (fun c => c == '0')) hdata
  have hm' : (toString m).data.head? ≠ some '0' := repr_head_ne_zero m hm
  have hn' : (toString n).data.head? ≠ some '0' := repr_head_ne_zero n hn
  rw [dropWhile_zeros _ _ hm', dropWhile_zeros _ _ hn'] at h1
  have hs : toString m = toString n := by
    rw [← mk_data_eq (toString m), ← mk_data_eq (toString n), h1]
  exact repr_inj m n hm hn hs

/-- The rendered sequence field keeps every decimal digit, so from the
1001st count of a day onward it is at least four characters wide. -/
theorem pad3_length_wide (n : Nat) (h : 1000 ≤ n) : 4 ≤ (pad3 n).length := by
  have hlen : (pad3 n).length
      = (3 - (toString n).length) + (toString n).length := by
    show (pad3 n).data.length = _
    rw [pad3_data]
    simp [List.length_append]
  have hd : 4 ≤ (toString n).length := by
    show 4 ≤ (Nat.repr n).length
    have he : (Nat.repr n).length = (Nat.digits 10 n).length := by
      show (Nat.repr n).data.length = _
      rw [repr_data_eq n (by omega)]
      simp
    rw [he]
    by_contra hc
    have h3 : (Nat.digits 10 n).length ≤ 3 := by omega
    have hlt : n < 10 ^ (Nat.digits 10 n).length :=
      Nat.lt_base_pow_length_digits (by norm_num)
    have : (10:ℕ) ^ (Nat.digits 10 n).length ≤ 10 ^ 3 :=
      Nat.pow_le_pow_right (by norm_num) h3
    omega
  omega

/-- C8: the sequence field has no fixed upper bound.  On a day that
starts at count zero, the `n+1`-st creation under one prefix carries the
sequence field `pad3 (n+1)`; once a day passes 999 creations this field
widens to four or more characters, it always keeps the full decimal
representation behind its zero padding (so it never wraps), and the
codes of any two distinct creations of the day — widened or not — are
never equal. -/
theorem seq_overflow_widens (db : DB) (d : TaskData) (cb now : Nat) (date : String)
    (h : dayCount db.tasks (categoryPrefix d.category) date = 0) :
    (∀ n, (create_task (createMany db d cb date now n) d cb date now).1
        = categoryPrefix d.category ++ "-" ++ date ++ "-" ++ pad3 (n + 1)) ∧
    pad3 1000 = "1000" ∧
    (∀ n, 999 ≤ n → 4 ≤ (pad3 (n + 1)).length) ∧
    (∀ n, ∃ z, pad3 n = String.mk z ++ toString n ∧ ∀ c ∈ z, c = '0') ∧
    (∀ i j, i ≠ j →
      (create_task (createMany db d cb date now i) d cb date now).1
        ≠ (create_task (createMany db d cb date now j) d cb date now).1) := by
  refine ⟨createMany_next_code db d cb now date h, by decide, ?_, ?_, ?_⟩
  · intro n hn
    exact pad3_length_wide (n + 1) (by omega)
  · intro n
    refine ⟨List.replicate (3 - (toString n).length) '0', ?_, ?_⟩
    · rw [← mk_data_eq (pad3 n), pad3_data]
      rfl
    · intro c hc
      exact List.eq_of_mem_replicate hc
  · intro i j hij heq
    rw [createMany_next_code db d cb now date h i,
        createMany_next_code db d cb now date h j] at heq
    have hdata := congrArg String.data heq
    simp only [String.data_append] at hdata
    have hp := List.append_cancel_left hdata
    have hpad : pad3 (i + 1) = pad3 (j + 1) := by
      rw [← mk_data_eq (pad3 (i + 1)), ← mk_data_eq (pad3 (j + 1)), hp]
    have := pad3_inj (i + 1) (j + 1) (by omega) (by omega) hpad
    omega

/-- Witness for C8: a concrete day at count zero; the 1000th creation's
code carries the widened sequence `1000` and differs from, e.g., the
4th creation's code. -/
theorem seq_overflow_widens_witness :
    dayCount wDbTwoOwners.tasks (categoryPrefix "repair") "250101" = 0 ∧
    (create_task (createMany wDbTwoOwners wTaskData 2 "250101" 100 999)
        wTaskData 2 "250101" 100).1
      = categoryPrefix "repair" ++ "-" ++ "250101" ++ "-" ++ pad3 (999 + 1) ∧
    (999 ≤ 999 ∧ 4 ≤ (pad3 (999 + 1)).length) ∧
    ((3 : Nat) ≠ 999 ∧
      (create_task (createMany wDbTwoOwners wTaskData 2 "250101" 100 3)
          wTaskData 2 "250101" 100).1
        ≠ (create_task (createMany wDbTwoOwners wTaskData 2 "250101" 100 999)
            wTaskData 2 "250101" 100).1) :=
  ⟨by decide,
    (seq_overflow_widens wDbTwoOwners wTaskData 2 100 "250101" (by decide)).1 999,
    ⟨by decide,
      (seq_overflow_widens wDbTwoOwners wTaskData 2 100 "250101" (by decide)).2.2.1
        999 (by decide)⟩,
    ⟨by decide,
      (seq_overflow_widens wDbTwoOwners wTaskData 2 100 "250101" (by decide)).2.2.2.2
        3 999 (by decide)⟩⟩

/-- A store with two active accounts and no task of the day. -/
def wDbEmptyDay : DB :=
  { users := [wCommercialUser, wTechUser], tasks := [], activities := [], files := [] }

/-- A not-yet-started concurrent `create_task` call by account 1. -/
def wPending1 : PendingCreate := { task_data := wTaskData, created_by := 1 }

/-- A not-yet-started concurrent `create_task` call by account 2. -/
def wPending2 : PendingCreate := { task_data := wTaskData, created_by := 2 }

/-- C3 (recorded as a defect of the source): `create_task` performs its
`SELECT COUNT(*)` and `INSERT` as two separate storage operations with
no transactional unit around them, so the interleaving in which both
concurrent calls count before either inserts hands both calls the same
sequence number: on an empty day, two concurrent `repair` creations can
both be assigned `REP-250101-001`, where the specification requires the
codes `REP-250101-001` and `REP-250101-002` in some order.  A serialized
schedule of the same two calls does produce the two distinct codes. -/
theorem concurrent_create_task_collision :
    (runSchedule wDbEmptyDay wPending1 wPending2
        "250101" 100 [false, true, false, true]).2.1.inserted
      = some "REP-250101-001" ∧
    (runSchedule wDbEmptyDay wPending1 wPending2
        "250101" 100 [false, true, false, true]).2.2.inserted
      = some "REP-250101-001" ∧
    (runSchedule wDbEmptyDay wPending1 wPending2
        "250101" 100 [false, false, true, true]).2.1.inserted
      = some "REP-250101-001" ∧
    (runSchedule wDbEmptyDay wPending1 wPending2
        "250101" 100 [false, false, true, true]).2.2.inserted
      = some "REP-250101-002" :=
  ⟨by decide, by decide, by decide, by decide⟩

/-- C6: registration of an unknown external handle inserts exactly one
new account row, carrying status `pending`, and succeeds; registration
of a handle that is already known fails and mutates nothing — the store
is returned exactly as it was. -/
theorem register_user_semantics (db : DB) (tid full_name : String)
    (username : Option String) :
    ((∀ u ∈ db.users, u.telegram_id ≠ tid) →
      register_user db tid full_name username
        = (true, { db with users := db.users ++
            [⟨db.users.length + 1, tid, username, full_name, "pending", none, none⟩] })) ∧
    ((∃ u ∈ db.users, u.telegram_id = tid) →
      register_user db tid full_name username = (false, db)) := by
  constructor
  · intro h
    unfold register_user
    have hf : db.users.find? (fun u => u.telegram_id == tid) = none := by
      rw [List.find?_eq_none]
      intro u hu
      simp [h u hu]
    rw [hf]
  · rintro ⟨u, hu, he⟩
    unfold register_user
    have hf : (db.users.find? (fun u => u.telegram_id == tid)).isSome := by
      rw [List.find?_isSome]
      exact ⟨u, hu, by simp [he]⟩
    cases hfind : db.users.find? (fun u => u.telegram_id == tid) with
    | none => rw [hfind] at hf; exact absurd hf (by simp)
    | some v => rfl

/-- Witness for C6: registering a fresh handle against a store holding
one pending account creates a second pending row; re-registering the
existing handle returns failure with the store untouched. -/
theorem register_user_semantics_witness :
    ((∀ u ∈ wDbPending.users, u.telegram_id ≠ "9") ∧
      register_user wDbPending "9" "Zoe" none
        = (true, { wDbPending with users := wDbPending.users ++
            [⟨2, "9", none, "Zoe", "pending", none, none⟩] })) ∧
    ((∃ u ∈ wDbPending.users, u.telegram_id = "5") ∧
      register_user wDbPending "5" "Eve" none = (false, wDbPending)) :=
  ⟨⟨by decide, (register_user_semantics wDbPending "9" "Zoe" none).1 (by decide)⟩,
    ⟨by decide, (register_user_semantics wDbPending "5" "Eve" none).2 (by decide)⟩⟩

/-- The creation input with no customer city. -/
def wTaskDataNoCity : TaskData := { wTaskData with customer_city := none }

/-- C9: `create_task` stores exactly the row built by `newTaskRow`,
whose `travel_required` flag is derived solely from the supplied
customer city — `true` iff the lower-cased city differs from `tanger`,
with a missing city defaulting to the empty string and hence to `true` —
while a `travel_required` value supplied in the input dictionary is
ignored: the result of `create_task` does not depend on it. -/
theorem travel_required_derived (db : DB) (d : TaskData) (cb : Nat) (code date : String)
    (now : Nat) (b : Bool) :
    (create_task db d cb date now).2.tasks
      = db.tasks
        ++ [newTaskRow db d cb (generate_task_code db.tasks d.category date) date now] ∧
    (newTaskRow db d cb code date now).travel_required
      = decide (lowerStr (d.customer_city.getD "") ≠ "tanger") ∧
    (d.customer_city = none → (newTaskRow db d cb code date now).travel_required = true) ∧
    create_task db { d with travel_required := some b } cb date now
      = create_task db { d with travel_required := none } cb date now := by
  refine ⟨rfl, rfl, ?_, rfl⟩
  intro h
  simp [newTaskRow, TaskData.cityOrEmpty, h, lowerStr]

/-- Witness for C9: a task without a customer city is stored as
requiring travel, and a supplied `travel_required := false` changes
nothing about the created task. -/
theorem travel_required_derived_witness :
    (wTaskDataNoCity.customer_city = none ∧
      (newTaskRow wDbEmptyDay wTaskDataNoCity 1 "X-1" "250101" 100).travel_required
        = true) ∧
    create_task wDbEmptyDay { wTaskData with travel_required := some false } 1 "250101" 100
      = create_task wDbEmptyDay { wTaskData with travel_required := none } 1 "250101" 100 :=
  ⟨⟨rfl, (travel_required_derived wDbEmptyDay wTaskDataNoCity 1 "X-1" "250101" 100
      false).2.2.1 rfl⟩,
    (travel_required_derived wDbEmptyDay wTaskData 1 "X-1" "250101" 100 false).2.2.2⟩

/-- If the first `|p|` characters of `q` already fail to be a prefix of
`p`, then `q` is a prefix of no extension of `p`. -/
theorem isPrefixOf_append_false (q : List Char) :
    ∀ p s : List Char, (q.take p.length).isPrefixOf p = false →
      q.isPrefixOf (p ++ s) = false := by
  induction q with
  | nil => intro p s h; simp [List.isPrefixOf] at h
  | cons a as ih =>
      intro p s h
      cases p with
      | nil => simp [List.isPrefixOf] at h
      | cons b bs =>
          simp only [List.length_cons, List.take_succ_cons, List.isPrefixOf,
            List.cons_append] at h ⊢
          cases hab : a == b with
          | false => simp [hab]
          | true =>
              rw [hab] at h
              simp only [Bool.true_and] at h ⊢
              exact ih bs s h

/-- The router-token analogue of `isPrefixOf_append_false`. -/
theorem strStartsWith_append_false (q p s : String)
    (h : ((String.mk (q.data.take p.data.length)).data).isPrefixOf p.data = false) :
    strStartsWith q (p ++ s) = false := by
  unfold strStartsWith
  rw [String.data_append]
  exact isPrefixOf_append_false q.data p.data s.data h

/-- A string extending the literal prefix `p` never equals a string `q`
that does not start with `p`. -/
theorem append_ne_of_not_startsWith (p s q : String)
    (h : strStartsWith p q = false) : p ++ s ≠ q := by
  intro he
  rw [← he] at h
  have ht : strStartsWith p (p ++ s) = true := by
    unfold strStartsWith
    rw [String.data_append]
    exact isPrefixOf_append_self p.data s.data
  rw [ht] at h
  exact absurd h (by decide)

/-- Extensions of `upload_task_` miss every earlier branch of the
`handle_callback` dispatch chain and hit the upload branch. -/
theorem upload_data_dispatch (s : String) :
    ("upload_task_" ++ s ≠ "start_registration") ∧
    ("upload_task_" ++ s ≠ "learn_more") ∧
    strStartsWith "tasks_filter_" ("upload_task_" ++ s) = false ∧
    strStartsWith "cat_" ("upload_task_" ++ s) = false ∧
    strStartsWith "city_" ("upload_task_" ++ s) = false ∧
    strStartsWith "company_" ("upload_task_" ++ s) = false ∧
    strStartsWith "priority_" ("upload_task_" ++ s) = false ∧
    strStartsWith "act_" ("upload_task_" ++ s) = false ∧
    strStartsWith "upload_task_" ("upload_task_" ++ s) = true :=
  ⟨append_ne_of_not_startsWith _ s _ (by decide),
    append_ne_of_not_startsWith _ s _ (by decide),
    strStartsWith_append_false _ _ s (by decide),
    strStartsWith_append_false _ _ s (by decide),
    strStartsWith_append_false _ _ s (by decide),
    strStartsWith_append_false _ _ s (by decide),
    strStartsWith_append_false _ _ s (by decide),
    strStartsWith_append_false _ _ s (by decide),
    likePrefix_append _ _⟩

/-- C10: selecting a task for file upload turns the button payload
`upload_task_<id>` into the literal code `TASK-<id>` and looks the task
up by that code instead of by its id.  Hence for an active caller,
whenever no stored task's code equals `TASK-<id>` — the case for every
task created under a category prefix, even when a task with that very id
exists — the handler answers "Task not found" and stores no upload
session: the session map is returned unchanged. -/
theorem upload_selection_uses_literal_task_code
    (db : DB) (sessions : Sessions) (tid full_name : String) (username : Option String)
    (clk : Clock) (u : UserRec) (s : String) (n : Nat)
    (hu : get_user_by_telegram_id db tid = some u) (ha : u.status = "active")
    (hparse : parseNat? s = some n)
    (hno : ∀ t ∈ db.tasks, t.task_code ≠ "TASK-" ++ toString n) :
    handle_callback db sessions tid full_name username ("upload_task_" ++ s) clk
      = ⟨.errorMsg "Task not found.", update_last_login db u.id clk.now, sessions,
          [.readUsers, .writeUsers, .readTasks]⟩ := by
  obtain ⟨d1, d2, d3, d4, d5, d6, d7, d8, d9⟩ := upload_data_dispatch s
  have hfind : get_task_by_code (update_last_login db u.id clk.now)
      ("TASK-" ++ toString n) = none := by
    unfold get_task_by_code
    rw [List.find?_eq_none]
    intro t ht
    simp [hno t ht]
  unfold handle_callback
  rw [if_neg d1, if_neg d2, check_user_access_active db tid clk.now u hu ha]
  unfold callbackDispatch
  rw [d3, d4, d5, d6, d7, d8, d9]
  simp only [Bool.false_eq_true, if_false, if_true]
  unfold cb_upload_task_selection
  rw [splitTail_append _ _ (upload_payload_no_sep s n hparse), hparse]
  simp only [hfind]
  rfl

/-- A task whose id is 3 but whose code carries the `repair` prefix. -/
def wTask3 : TaskRec :=
  { id := 3, task_code := "REP-250101-001", task_type := "technical_task"
    category := "repair", description := "fix pump", customer_name := some "ACME"
    customer_city := some "Rabat", customer_area := none, travel_required := true
    company_type := none, status := "to_do", priority := "normal", created_by := 2
    created_date := "250101", created_at := 90 }

/-- A store with one active account and the task `wTask3`. -/
def wDbTask3 : DB :=
  { users := [wTechUser], tasks := [wTask3], activities := [], files := [] }

/-- Witness for C10: the store holds the task with id 3 under code
`REP-250101-001`, yet selecting it for upload answers "Task not found"
and leaves the session map unchanged. -/
theorem upload_selection_uses_literal_task_code_witness :
    (get_user_by_telegram_id wDbTask3 "11" = some wTechUser ∧
      wTechUser.status = "active" ∧ parseNat? "3" = some 3 ∧
      (∀ t ∈ wDbTask3.tasks, t.task_code ≠ "TASK-" ++ toString 3)) ∧
    handle_callback wDbTask3 [] "11" "Al" none ("upload_task_" ++ "3") wClock
      = ⟨.errorMsg "Task not found.", update_last_login wDbTask3 wTechUser.id wClock.now,
          [], [.readUsers, .writeUsers, .readTasks]⟩ :=
  ⟨⟨by decide, by decide, by decide, by decide⟩,
    upload_selection_uses_literal_task_code wDbTask3 [] "11" "Al" none wClock
      wTechUser "3" 3 (by decide) (by decide) (by decide) (by decide)⟩

/-- A dict assignment leaves exactly one binding for the assigned key. -/
theorem countFor_set (m : Sessions) (k : Nat) (v : Session) :
    Sessions.countFor (Sessions.set m k v) k = 1 := by
  unfold Sessions.set Sessions.countFor
  rw [List.countP_cons_of_pos _ _ (by simp)]
  have hz : List.countP (fun p => p.1 == k)
      (List.filter (fun p => !(p.1 == k)) m) = 0 := by
    rw [List.countP_eq_zero]
    intro a ha
    have := (List.mem_filter.mp ha).2
    simpa using this
  rw [hz]

/-- A dict assignment makes the assigned value the key's binding. -/
theorem get_set (m : Sessions) (k : Nat) (v : Session) :
    Sessions.get (Sessions.set m k v) k = some v := by
  unfold Sessions.set Sessions.get
  rw [List.find?_cons_of_pos _ (by simp)]
  rfl

/-- Extensions of `cat_` miss the dispatch branches before the category
branch and hit it. -/
theorem cat_data_dispatch (s : String) :
    ("cat_" ++ s ≠ "start_registration") ∧
    ("cat_" ++ s ≠ "learn_more") ∧
    strStartsWith "tasks_filter_" ("cat_" ++ s) = false ∧
    strStartsWith "cat_" ("cat_" ++ s) = true :=
  ⟨append_ne_of_not_startsWith _ s _ (by decide),
    append_ne_of_not_startsWith _ s _ (by decide),
    strStartsWith_append_false _ _ s (by decide),
    likePrefix_append _ _⟩

/-- Extensions of `act_` miss the dispatch branches before the activity
branch and hit it. -/
theorem act_data_dispatch (s : String) :
    ("act_" ++ s ≠ "start_registration") ∧
    ("act_" ++ s ≠ "learn_more") ∧
    strStartsWith "tasks_filter_" ("act_" ++ s) = false ∧
    strStartsWith "cat_" ("act_" ++ s) = false ∧
    strStartsWith "city_" ("act_" ++ s) = false ∧
    strStartsWith "company_" ("act_" ++ s) = false ∧
    strStartsWith "priority_" ("act_" ++ s) = false ∧
    strStartsWith "act_" ("act_" ++ s) = true :=
  ⟨append_ne_of_not_startsWith _ s _ (by decide),
    append_ne_of_not_startsWith _ s _ (by decide),
    strStartsWith_append_false _ _ s (by decide),
    strStartsWith_append_false _ _ s (by decide),
    strStartsWith_append_false _ _ s (by decide),
    strStartsWith_append_false _ _ s (by decide),
    strStartsWith_append_false _ _ s (by decide),
    likePrefix_append _ _⟩

/-- A live activity-logging session awaiting its description step. -/
def wOldSession : Session :=
  { action := "log_activity", activity_type := some "travel", step := "description" }

/-- A session store in which account 1 is mid-flow. -/
def wSessions0 : Sessions := [(1, wOldSession)]

/-- A store holding only the active commercial account. -/
def wDbCommercial : DB :=
  { users := [wCommercialUser], tasks := [], activities := [], files := [] }

/-- Counterexample to C5 as stated: account 1 (active, role
`commercial`) is mid-flow in an activity-logging session and sends the
flow-initiating category selection `cat_repair`.  The event is handled
(a permission-denial response is produced), yet the prior session is
not replaced by the new flow's initial state — the session store is
returned identical, which differs from what replacement would give. -/
theorem category_selection_keeps_prior_session :
    Sessions.get wSessions0 1 = some wOldSession ∧
    (handle_callback wDbCommercial wSessions0 "10" "Bob" none "cat_repair" wClock).sessions
      = wSessions0 ∧
    (handle_callback wDbCommercial wSessions0 "10" "Bob" none "cat_repair" wClock).resp
      = .errorMsg "You don't have permission to create tasks." ∧
    wSessions0 ≠ Sessions.set wSessions0 1
      { action := "create_task", category := some "repair", step := "description" } :=
  ⟨by decide, by decide, by decide, by decide⟩

/-- C5 (amended): each account owns at most one live session — a dict
assignment leaves exactly one binding, holding the new flow's initial
state.  An activity-type selection unconditionally replaces any prior
session of any flow tag; a category selection does so when the caller
holds the `manager` or `technician` role but leaves the prior session
untouched otherwise; an upload-task selection does so only when its
`TASK-<id>` lookup succeeds.  A replacement writes no task, activity or
file record, so the discarded flow's collected steps have no side
effect. -/
theorem session_single_flow_replacement
    (db : DB) (sessions : Sessions) (tid full_name : String)
    (username : Option String) (clk : Clock) (u : UserRec) (s : String)
    (hu : get_user_by_telegram_id db tid = some u) (ha : u.status = "active")
    (hact : findSplit "act_".data s.data = none)
    (hcat : findSplit "cat_".data s.data = none) :
    (∀ (m : Sessions) (k : Nat) (v : Session),
      Sessions.countFor (Sessions.set m k v) k = 1 ∧
      Sessions.get (Sessions.set m k v) k = some v) ∧
    handle_callback db sessions tid full_name username ("act_" ++ s) clk
      = ⟨.screen "log_activity_prompt", update_last_login db u.id clk.now,
          Sessions.set sessions u.id
            { action := "log_activity", activity_type := some s, step := "description" },
          [.readUsers, .writeUsers]⟩ ∧
    (hasRole u ["manager", "technician"] = true →
      handle_callback db sessions tid full_name username ("cat_" ++ s) clk
        = ⟨.screen "create_task_step1", update_last_login db u.id clk.now,
            Sessions.set sessions u.id
              { action := "create_task", category := some s, step := "description" },
            [.readUsers, .writeUsers]⟩) ∧
    (hasRole u ["manager", "technician"] = false →
      handle_callback db sessions tid full_name username ("cat_" ++ s) clk
        = ⟨.errorMsg "You don't have permission to create tasks.",
            update_last_login db u.id clk.now, sessions, [.readUsers, .writeUsers]⟩) ∧
    (∀ (n : Nat) (t : TaskRec), parseNat? s = some n →
      get_task_by_code db ("TASK-" ++ toString n) = some t →
      handle_callback db sessions tid full_name username ("upload_task_" ++ s) clk
        = ⟨.screen "upload_prompt", update_last_login db u.id clk.now,
            Sessions.set sessions u.id
              { action := "upload_file", task_id := some n, step := "waiting_file" },
            [.readUsers, .writeUsers, .readTasks]⟩) ∧
    (update_last_login db u.id clk.now).tasks = db.tasks ∧
    (update_last_login db u.id clk.now).activities = db.activities ∧
    (update_last_login db u.id clk.now).files = db.files := by
  refine ⟨fun m k v => ⟨countFor_set m k v, get_set m k v⟩, ?_, ?_, ?_, ?_, rfl, rfl, rfl⟩
  · obtain ⟨a1, a2, a3, a4, a5, a6, a7, a8⟩ := act_data_dispatch s
    unfold handle_callback
    rw [if_neg a1, if_neg a2, check_user_access_active db tid clk.now u hu ha]
    unfold callbackDispatch
    rw [a3, a4, a5, a6, a7, a8]
    simp only [Bool.false_eq_true, if_false, if_true]
    unfold cb_activity_selection
    rw [splitTail_append _ _ hact]
    rfl
  · intro hrole
    obtain ⟨c1, c2, c3, c4⟩ := cat_data_dispatch s
    unfold handle_callback
    rw [if_neg c1, if_neg c2, check_user_access_active db tid clk.now u hu ha]
    unfold callbackDispatch
    rw [c3, c4]
    simp only [Bool.false_eq_true, if_false, if_true]
    unfold cb_category_selection
    rw [hrole, splitTail_append _ _ hcat]
    rfl
  · intro hrole
    obtain ⟨c1, c2, c3, c4⟩ := cat_data_dispatch s
    unfold handle_callback
    rw [if_neg c1, if_neg c2, check_user_access_active db tid clk.now u hu ha]
    unfold callbackDispatch
    rw [c3, c4]
    simp only [Bool.false_eq_true, if_false, if_true]
    unfold cb_category_selection
    rw [hrole]
    rfl
  · intro n t hparse ht
    obtain ⟨d1, d2, d3, d4, d5, d6, d7, d8, d9⟩ := upload_data_dispatch s
    have hfind : get_task_by_code (update_last_login db u.id clk.now)
        ("TASK-" ++ toString n) = some t := ht
    unfold handle_callback
    rw [if_neg d1, if_neg d2, check_user_access_active db tid clk.now u hu ha]
    unfold callbackDispatch
    rw [d3, d4, d5, d6, d7, d8, d9]
    simp only [Bool.false_eq_true, if_false, if_true]
    unfold cb_upload_task_selection
    rw [splitTail_append _ _ (upload_payload_no_sep s n hparse), hparse]
    simp only [hfind]
    rfl

/-- Witness for C5 (amended): the active technician replaces their live
activity session by selecting category `repair`; the commercial account
hypothesis cases are evaluated concretely. -/
theorem session_single_flow_replacement_witness :
    (get_user_by_telegram_id wDbTask3 "11" = some wTechUser ∧
      wTechUser.status = "active" ∧
      hasRole wTechUser ["manager", "technician"] = true) ∧
    handle_callback wDbTask3 wSessions0 "11" "Al" none ("cat_" ++ "repair") wClock
      = ⟨.screen "create_task_step1", update_last_login wDbTask3 wTechUser.id wClock.now,
          Sessions.set wSessions0 wTechUser.id
            { action := "create_task", category := some "repair", step := "description" },
          [.readUsers, .writeUsers]⟩ ∧
    handle_callback wDbTask3 wSessions0 "11" "Al" none ("act_" ++ "travel") wClock
      = ⟨.screen "log_activity_prompt", update_last_login wDbTask3 wTechUser.id wClock.now,
          Sessions.set wSessions0 wTechUser.id
            { action := "log_activity", activity_type := some "travel",
              step := "description" },
          [.readUsers, .writeUsers]⟩ :=
  ⟨⟨by decide, by decide, by decide⟩,
    (session_single_flow_replacement wDbTask3 wSessions0 "11" "Al" none wClock
      wTechUser "repair" (by decide) (by decide) (by decide) (by decide)).2.2.1
      (by decide),
    (session_single_flow_replacement wDbTask3 wSessions0 "11" "Al" none wClock
      wTechUser "travel" (by decide) (by decide) (by decide) (by decide)).2.1⟩

/-- The dispatch prefixes of `handle_callback`, in source order. -/
def catalogPrefixes : List String :=
  ["tasks_filter_", "cat_", "city_", "company_", "priority_", "act_",
   "upload_task_", "stats_", "schedule_", "settings_", "help_"]

/-- The exact-match dispatch tokens of `handle_callback`. -/
def catalogExact : List String :=
  ["start_registration", "learn_more", "upload_search", "noop"]

/-- C7: the callback router is fail-safe.  For an authenticated caller,
a payload matching no catalog entry — none of the dispatch prefixes and
none of the exact tokens — is answered with the generic "Unknown
action" response, with the store and sessions untouched; and whenever
the dispatch chain raises (the one uncaught exception of the chain),
the surrounding `try/except` converts it to the generic error response
instead of propagating the fault.  Every path of `handle_callback`
therefore ends in a response. -/
theorem router_fail_safe (db : DB) (sessions : Sessions) (tid full_name : String)
    (username : Option String) (data : String) (clk : Clock) (u : UserRec)
    (hu : get_user_by_telegram_id db tid = some u) (ha : u.status = "active") :
    ((∀ p ∈ catalogPrefixes, strStartsWith p data = false) →
      (∀ q ∈ catalogExact, data ≠ q) →
      handle_callback db sessions tid full_name username data clk
        = ⟨.unknownAction, update_last_login db u.id clk.now, sessions,
            [.readUsers, .writeUsers]⟩) ∧
    (∀ e, data ≠ "start_registration" → data ≠ "learn_more" →
      callbackDispatch (update_last_login db u.id clk.now) sessions u data clk
        = .error e →
      handle_callback db sessions tid full_name username data clk
        = ⟨.errorOccurred, update_last_login db u.id clk.now, sessions,
            [.readUsers, .writeUsers]⟩) := by
  constructor
  · intro hp hq
    have p1 := hp "tasks_filter_" (by simp [catalogPrefixes])
    have p2 := hp "cat_" (by simp [catalogPrefixes])
    have p3 := hp "city_" (by simp [catalogPrefixes])
    have p4 := hp "company_" (by simp [catalogPrefixes])
    have p5 := hp "priority_" (by simp [catalogPrefixes])
    have p6 := hp "act_" (by simp [catalogPrefixes])
    have p7 := hp "upload_task_" (by simp [catalogPrefixes])
    have p8 := hp "stats_" (by simp [catalogPrefixes])
    have p9 := hp "schedule_" (by simp [catalogPrefixes])
    have p10 := hp "settings_" (by simp [catalogPrefixes])
    have p11 := hp "help_" (by simp [catalogPrefixes])
    unfold handle_callback
    rw [if_neg (hq "start_registration" (by simp [catalogExact])),
        if_neg (hq "learn_more" (by simp [catalogExact])),
        check_user_access_active db tid clk.now u hu ha]
    unfold callbackDispatch
    rw [p1, p2, p3, p4, p5, p6, p7, p8, p9, p10, p11]
    simp only [Bool.false_eq_true, if_false]
    rw [if_neg (hq "upload_search" (by simp [catalogExact])),
        if_neg (hq "noop" (by simp [catalogExact]))]
    rfl
  · intro e h1 h2 hdisp
    unfold handle_callback
    rw [if_neg h1, if_neg h2, check_user_access_active db tid clk.now u hu ha]
    simp only [hdisp]

/-- Witness for C7: the unclassified token `bogus` is answered "Unknown
action", and the malformed upload token `upload_task_x` (whose `int()`
raises) is answered with the generic error response, never a crash. -/
theorem router_fail_safe_witness :
    ((∀ p ∈ catalogPrefixes, strStartsWith p "bogus" = false) ∧
      (∀ q ∈ catalogExact, ("bogus" : String) ≠ q)) ∧
    handle_callback wDbTask3 [] "11" "Al" none "bogus" wClock
      = ⟨.unknownAction, update_last_login wDbTask3 wTechUser.id wClock.now, [],
          [.readUsers, .writeUsers]⟩ ∧
    handle_callback wDbTask3 [] "11" "Al" none "upload_task_x" wClock
      = ⟨.errorOccurred, update_last_login wDbTask3 wTechUser.id wClock.now, [],
          [.readUsers, .writeUsers]⟩ :=
  ⟨⟨by decide, by decide⟩,
    (router_fail_safe wDbTask3 [] "11" "Al" none "bogus" wClock wTechUser
      (by decide) (by decide)).1 (by decide) (by decide),
    (router_fail_safe wDbTask3 [] "11" "Al" none "upload_task_x" wClock wTechUser
      (by decide) (by decide)).2 "ValueError" (by decide) (by decide) rfl⟩

end TAPM
